import Mathlib

/-!
Verification of the Poultry Farm Management canister (`src/index.ts`).

The durable `StableBTreeMap` stores are modelled as association lists
(`Store α` below) with point lookup (`alGet`), insert-or-replace
(`alInsert`) and value enumeration (`alValues`).  JavaScript numbers are
modelled as exact rationals; JavaScript division, which can produce
`NaN`/`Infinity` on a zero denominator, is modelled by the explicit sum
type `JSVal` with `jdiv`/`jmul`.  Each HTTP handler becomes a function
from its request data and the store state to the next state and the
response; `ic.time`/`Date.now` and `uuidv4` are external inputs and are
passed in as explicit parameters.  Entity fields the handlers never read
(suppliers, batch numbers, dates of expiry, …) are elided.
-/

/-- A JavaScript number outcome: a finite value, `NaN`, or a signed
infinity.  Finite arithmetic is exact rational arithmetic. -/
inductive JSVal where
  | num : ℚ → JSVal
  | nan : JSVal
  | inf : JSVal
  | ninf : JSVal
deriving DecidableEq

/-- JavaScript division `a / b` on finite operands: division by zero
yields `NaN` (0/0) or a signed infinity. -/
def jdiv (a b : ℚ) : JSVal :=
  if b = 0 then
    if a = 0 then .nan else if 0 < a then .inf else .ninf
  else .num (a / b)

/-- JavaScript multiplication of a division outcome by a finite number
(used for the `* 100` percentage scalings). -/
def jmul (v : JSVal) (q : ℚ) : JSVal :=
  match v with
  | .num a => .num (a * q)
  | .nan => .nan
  | .inf => if 0 < q then .inf else if q < 0 then .ninf else .nan
  | .ninf => if 0 < q then .ninf else if q < 0 then .inf else .nan

/-- One `StableBTreeMap<string, α>`: an association list from string keys
to records. -/
abbrev Store (α : Type) := List (String × α)

/-- `storage.get(k)`: the value under key `k`, if present. -/
def alGet {α : Type} (m : Store α) (k : String) : Option α :=
  match m with
  | [] => none
  | (k2, v) :: rest => if k2 = k then some v else alGet rest k

/-- `storage.insert(k, v)`: replace the value under `k` in place, or
append a new entry when `k` is absent. -/
def alInsert {α : Type} (m : Store α) (k : String) (v : α) : Store α :=
  match m with
  | [] => [(k, v)]
  | (k2, v2) :: rest => if k2 = k then (k, v) :: rest else (k2, v2) :: alInsert rest k v

/-- `storage.values()`: every stored record. -/
def alValues {α : Type} (m : Store α) : List α :=
  m.map Prod.snd

-- Enumerations of the data model (`src/index.ts`, lines 6–127).

inductive TxType where
  | sale | purchase | expense | investment
deriving DecidableEq

inductive TxStatus where
  | pending | completed | cancelled
deriving DecidableEq

inductive BirdStatus where
  | healthy | sick | sold | deceased
deriving DecidableEq

inductive OrderStatus where
  | pending | confirmed | shipped | delivered | cancelled
deriving DecidableEq

inductive PaymentStatus where
  | pending | paid | refunded
deriving DecidableEq

inductive Period where
  | daily | weekly | monthly
deriving DecidableEq

inductive HrType where
  | vaccination | medication | inspection | disease
deriving DecidableEq

/-- `class Bird` (fields read by `calculateMetrics`/`calculateFCR`). -/
structure Bird where
  id : String
  farmId : String
  breed : String
  quantity : ℚ
  status : BirdStatus
  weight : ℚ
  feedConsumption : ℚ
deriving DecidableEq

/-- `class Inventory` (fields read by the alert-threshold handler). -/
structure Inventory where
  id : String
  farmId : String
  name : String
  quantity : ℚ
  minimumThreshold : ℚ
  cost : ℚ
deriving DecidableEq

/-- `class Product` (fields read and written by the order handler). -/
structure Product where
  id : String
  farmId : String
  name : String
  quantity : ℚ
  price : ℚ
  available : Bool
deriving DecidableEq

/-- `class Transaction` (fields read by the financial aggregators). -/
structure Transaction where
  id : String
  farmId : String
  type : TxType
  category : String
  amount : ℚ
  status : TxStatus
deriving DecidableEq

/-- `class HealthRecord` (fields read by the health-report handler). -/
structure HealthRecord where
  id : String
  farmId : String
  type : HrType
  treatment : Option String
  nextFollowUp : Option Int
deriving DecidableEq

/-- The `metrics` object of `class Analytics`. -/
structure Metrics where
  mortality_rate : JSVal
  feed_conversion_ratio : JSVal
  production_rate : JSVal
  revenue : JSVal
  expenses : JSVal
  profit_margin : JSVal
deriving DecidableEq

/-- `class Analytics`.  `farmId` is an `Option` because the handler reads
`req.params.farmId` from a route that declares no `:farmId` segment, so
the stored value is JavaScript `undefined` (`none`). -/
structure Analytics where
  id : String
  farmId : Option String
  period : Period
  metrics : Metrics
  createdAt : Int
deriving DecidableEq

/-- One `{productId, quantity, price}` line item of an order. -/
structure LineItem where
  productId : String
  quantity : ℚ
  price : ℚ
deriving DecidableEq

/-- `class Order`.  `totalAmount` is an `Option`: the handler never
computes it, the persisted value is whatever the request body carried
(`undefined` = `none` when absent). -/
structure Order where
  id : String
  farmId : String
  customerId : String
  products : List LineItem
  totalAmount : Option ℚ
  status : OrderStatus
  paymentStatus : PaymentStatus
  createdAt : Int
  updatedAt : Option Int
deriving DecidableEq

/-- The JSON body of `POST /orders`: the fields the spread `...req.body`
can contribute to the `Order` literal.  A `none` field was absent from
the body, so the literal's default (if any) survives the spread. -/
structure OrderRequest where
  farmId : String
  customerId : String
  products : List LineItem
  totalAmount : Option ℚ
  status : Option OrderStatus
  paymentStatus : Option PaymentStatus
deriving DecidableEq

/-- The spec-level request payload of `POST /analytics/generate`
(`generateAnalytics(farmId, period)`).  The source handler reads neither
field: it takes `req.params.farmId`, which is `undefined` because the
route `/analytics/generate` declares no `:farmId` segment. -/
structure AnalyticsRequest where
  farmId : String
  period : Period
deriving DecidableEq

/-- The whole entity repository: one store per entity kind written or
read by the modelled handlers. -/
structure State where
  birds : Store Bird
  products : Store Product
  inventory : Store Inventory
  transactions : Store Transaction
  healthRecords : Store HealthRecord
  analytics : Store Analytics
  orders : Store Order
deriving DecidableEq

-- Helper functions of the canister (`src/index.ts`, lines 319–373).

/-- `calculateTotal(transactions, type)`: sum of `amount` over the
transactions of the given type. -/
def calculateTotal (transactions : List Transaction) (type : TxType) : ℚ :=
  (transactions.filter (fun tx => decide (tx.type = type))).foldl
    (fun sum tx => sum + tx.amount) 0

/-- `groupTransactionsByCategory(transactions)`: the
`acc[tx.category] = (acc[tx.category] || 0) + tx.amount` reduce. -/
def groupTransactionsByCategory (transactions : List Transaction) : Store ℚ :=
  transactions.foldl
    (fun acc tx => alInsert acc tx.category ((alGet acc tx.category).getD 0 + tx.amount))
    []

/-- `calculateFCR(birds)`: total feed over total weight, with no guard
against a zero denominator. -/
def calculateFCR (birds : List Bird) : JSVal :=
  let totalFeed := birds.foldl (fun sum b => sum + b.feedConsumption) 0
  let totalWeight := birds.foldl (fun sum b => sum + b.weight * b.quantity) 0
  jdiv totalFeed totalWeight

/-- `calculateProductionRate(birds)`: placeholder, always 0. -/
def calculateProductionRate (_birds : List Bird) : JSVal :=
  .num 0

/-- `calculateProfitMargin(transactions)`: percentage margin with an
explicit guard for zero revenue. -/
def calculateProfitMargin (transactions : List Transaction) : JSVal :=
  let revenue := calculateTotal transactions .sale
  let expenses := calculateTotal transactions .expense
  if revenue = 0 then .num 0
  else jmul (jdiv (revenue - expenses) revenue) 100

/-- `calculateMetrics(birds, transactions)`: all six metrics; the only
zero-denominator guard is the empty-`birds` early return. -/
def calculateMetrics (birds : List Bird) (transactions : List Transaction) : Metrics :=
  if birds.isEmpty then
    { mortality_rate := .num 0
      feed_conversion_ratio := .num 0
      production_rate := .num 0
      revenue := .num 0
      expenses := .num 0
      profit_margin := .num 0 }
  else
    let totalBirds := birds.foldl (fun sum b => sum + b.quantity) 0
    let deadBirds := (birds.filter (fun b => decide (b.status = .deceased))).foldl
      (fun sum b => sum + b.quantity) 0
    { mortality_rate := jmul (jdiv deadBirds totalBirds) 100
      feed_conversion_ratio := calculateFCR birds
      production_rate := calculateProductionRate birds
      revenue := .num (calculateTotal transactions .sale)
      expenses := .num (calculateTotal transactions .expense)
      profit_margin := calculateProfitMargin transactions }

/-- The all-zero metrics record (the empty-`birds` branch of
`calculateMetrics`). -/
def zeroMetrics : Metrics :=
  { mortality_rate := .num 0
    feed_conversion_ratio := .num 0
    production_rate := .num 0
    revenue := .num 0
    expenses := .num 0
    profit_margin := .num 0 }

-- The HTTP handlers (`src/index.ts`, lines 174–316).

/-- `POST /inventory`: insert the new record (id and timestamps are
generated outside the model and arrive inside `inv`). -/
def createInventoryHandler (inv : Inventory) (st : State) : State :=
  { st with inventory := alInsert st.inventory inv.id inv }

/-- `POST /inventory/alert-threshold`: filter the whole inventory store
by farm and `quantity <= minimumThreshold`; no store is written. -/
def lowStockInventoryHandler (farmId : String) (st : State) : State × List Inventory :=
  let lowStock := (alValues st.inventory).filter
    (fun inv => decide (inv.farmId = farmId) && decide (inv.quantity ≤ inv.minimumThreshold))
  (st, lowStock)

/-- `POST /transactions`: insert the new transaction. -/
def createTransactionHandler (tx : Transaction) (st : State) : State :=
  { st with transactions := alInsert st.transactions tx.id tx }

/-- `POST /health-records`: insert the new health record. -/
def createHealthRecordHandler (record : HealthRecord) (st : State) : State :=
  { st with healthRecords := alInsert st.healthRecords record.id record }

/-- The financial report object built by
`GET /farms/:farmId/financial-report` on a cache miss. -/
structure FinancialReport where
  totalSales : ℚ
  totalExpenses : ℚ
  totalInvestments : ℚ
  netProfit : ℚ
  transactionsByCategory : Store ℚ
deriving DecidableEq

/-- One entry of the in-memory report cache: `{data, timestamp}`. -/
structure CacheEntry where
  data : FinancialReport
  timestamp : Int
deriving DecidableEq

/-- The in-memory `cache` map. -/
abbrev Cache := Store CacheEntry

/-- `CACHE_DURATION = 5 * 60 * 1000` milliseconds. -/
def CACHE_DURATION : Int := 5 * 60 * 1000

/-- `getCachedData(key)`: the cached report when the entry exists and is
younger than `CACHE_DURATION`; `now` stands for `Date.now()`. -/
def getCachedData (cache : Cache) (key : String) (now : Int) : Option FinancialReport :=
  match alGet cache key with
  | some cached => if now - cached.timestamp < CACHE_DURATION then some cached.data else none
  | none => none

/-- The report literal of the financial-report handler, over the
transactions already filtered by farm. -/
def financialReportFor (transactions : List Transaction) : FinancialReport :=
  { totalSales := calculateTotal transactions .sale
    totalExpenses := calculateTotal transactions .expense
    totalInvestments := calculateTotal transactions .investment
    netProfit := calculateTotal transactions .sale - calculateTotal transactions .expense
    transactionsByCategory := groupTransactionsByCategory transactions }

/-- `GET /farms/:farmId/financial-report`: serve the cached report when
fresh, otherwise filter the transaction store by farm, build the report
and cache it at `now`. -/
def financialReportHandler (farmId : String) (transactions : Store Transaction)
    (cache : Cache) (now : Int) : FinancialReport × Cache :=
  let cacheKey := "financial-report-" ++ farmId
  match getCachedData cache cacheKey now with
  | some cached => (cached, cache)
  | none =>
    let txs := (alValues transactions).filter (fun tx => decide (tx.farmId = farmId))
    let report := financialReportFor txs
    (report, alInsert cache cacheKey { data := report, timestamp := now })

/-- Strict equality `s === o` between a string field and a possibly
`undefined` request value: `undefined` is equal to no string. -/
def jsStrEq (s : String) (o : Option String) : Bool :=
  match o with
  | some t => s = t
  | none => false

/-- `POST /analytics/generate`.  The route declares no `:farmId`
segment, so `req.params.farmId` is `undefined` (`none`) and both filters
select nothing; `period` is the literal `'monthly'`.  The request body
`req` is never read.  `id` stands for `uuidv4()`, `now` for the
timestamp of `getCurrentDate()`. -/
def generateAnalyticsHandler (_req : AnalyticsRequest) (id : String) (now : Int)
    (st : State) : State × Analytics :=
  let farmId : Option String := none
  let birds := (alValues st.birds).filter (fun b => jsStrEq b.farmId farmId)
  let transactions := (alValues st.transactions).filter (fun t => jsStrEq t.farmId farmId)
  let analytics : Analytics :=
    { id := id
      farmId := farmId
      period := .monthly
      metrics := calculateMetrics birds transactions
      createdAt := now }
  ({ st with analytics := alInsert st.analytics analytics.id analytics }, analytics)

/-- One pass of the `order.products.forEach` loop of `POST /orders`:
look the product up; when present, decrement its quantity by the ordered
amount (no stock check), recompute `available` from the new quantity and
write it back; when absent, do nothing. -/
def applyLineItem (products : Store Product) (item : LineItem) : Store Product :=
  match alGet products item.productId with
  | some product =>
    let updated := { product with
      quantity := product.quantity - item.quantity
      available := decide (product.quantity - item.quantity > 0) }
    alInsert products updated.id updated
  | none => products

/-- `POST /orders`: build the order literal — `status`/`paymentStatus`
default to `pending` but are overridden by the request body's spread
when present, and `totalAmount` comes only from the body — then run the
product loop and persist the order unconditionally.  `id` stands for
`uuidv4()`, `now` for the timestamp of `getCurrentDate()`. -/
def createOrderHandler (body : OrderRequest) (id : String) (now : Int)
    (st : State) : State × Order :=
  let order : Order :=
    { id := id
      createdAt := now
      updatedAt := none
      status := body.status.getD .pending
      paymentStatus := body.paymentStatus.getD .pending
      farmId := body.farmId
      customerId := body.customerId
      products := body.products
      totalAmount := body.totalAmount }
  let products := order.products.foldl applyLineItem st.products
  ({ st with products := products, orders := alInsert st.orders order.id order }, order)

/-- One incoming request, covering every route of `src/index.ts`. -/
inductive Op where
  | createInventory (inv : Inventory)
  | listFarmInventory (farmId : String) (page limit : Int)
  | lowStockAlert (farmId : String)
  | createTransaction (tx : Transaction)
  | financialReport (farmId : String) (now : Int)
  | createHealthRecord (record : HealthRecord)
  | healthReport (farmId : String)
  | generateAnalytics (req : AnalyticsRequest) (id : String) (now : Int)
  | createOrder (body : OrderRequest) (id : String) (now : Int)

/-- The effect of each endpoint on the entity repository.
`GET /farms/:farmId/inventory`, the financial report (which writes only
the in-memory cache) and the health report read the stores without
writing them. -/
def applyOp (op : Op) (st : State) : State :=
  match op with
  | .createInventory inv => createInventoryHandler inv st
  | .listFarmInventory _ _ _ => st
  | .lowStockAlert farmId => (lowStockInventoryHandler farmId st).1
  | .createTransaction tx => createTransactionHandler tx st
  | .financialReport _ _ => st
  | .createHealthRecord record => createHealthRecordHandler record st
  | .healthReport _ => st
  | .generateAnalytics req id now => (generateAnalyticsHandler req id now st).1
  | .createOrder body id now => (createOrderHandler body id now st).1

/-- The `Product` class invariant: `available ⇔ quantity > 0`. -/
def productInvariant (st : State) : Prop :=
  ∀ p ∈ alValues st.products, p.available = decide (p.quantity > 0)

-- General lemmas about the store operations.

/-- Looking up the key just inserted finds the inserted value. -/
theorem alGet_alInsert_self {α : Type} (m : Store α) (k : String) (v : α) :
    alGet (alInsert m k v) k = some v := by
  induction m with
  | nil => simp [alGet, alInsert]
  | cons hd tl ih =>
    obtain ⟨k2, v2⟩ := hd
    by_cases h : k2 = k
    · subst h
      simp [alGet, alInsert]
    · simp [alGet, alInsert, h, ih]

/-- Inserting a fresh key appends the new entry, leaving every existing
entry in place. -/
theorem alInsert_of_alGet_none {α : Type} (m : Store α) (k : String) (v : α)
    (h : alGet m k = none) : alInsert m k v = m ++ [(k, v)] := by
  induction m with
  | nil => simp [alInsert]
  | cons hd tl ih =>
    obtain ⟨k2, v2⟩ := hd
    by_cases hk : k2 = k
    · simp [alGet, hk] at h
    · simp [alGet, hk] at h
      simp [alInsert, hk, ih h]

/-- A value of the store after an insert is the inserted value or one of
the old values. -/
theorem mem_alValues_alInsert {α : Type} (m : Store α) (k : String) (v q : α)
    (h : q ∈ alValues (alInsert m k v)) : q = v ∨ q ∈ alValues m := by
  induction m with
  | nil =>
    simp [alInsert, alValues] at h
    exact Or.inl h
  | cons hd tl ih =>
    obtain ⟨k2, v2⟩ := hd
    by_cases hk : k2 = k
    · subst hk
      simp [alInsert, alValues] at h
      rcases h with h | h
      · exact Or.inl h
      · exact Or.inr (by simp [alValues, h])
    · simp [alInsert, hk, alValues] at h
      rcases h with h | h
      · exact Or.inr (by simp [alValues, h])
      · rcases ih (by simp [alValues, h]) with h2 | h2
        · exact Or.inl h2
        · exact Or.inr (by simp [alValues]; right; simpa [alValues] using h2)

-- Concrete fixtures used by the evaluation theorems.

/-- A stocked product: 10 units of eggs at price 2. -/
def prodA : Product :=
  { id := "A", farmId := "F", name := "eggs", quantity := 10, price := 2, available := true }

/-- A low-stock product: 3 units at price 1. -/
def prodP : Product :=
  { id := "P", farmId := "F", name := "meat", quantity := 3, price := 1, available := true }

/-- A repository holding only product `A`. -/
def stA : State :=
  { birds := [], products := [("A", prodA)], inventory := [], transactions := [],
    healthRecords := [], analytics := [], orders := [] }

/-- A repository holding only product `P`. -/
def stP : State :=
  { birds := [], products := [("P", prodP)], inventory := [], transactions := [],
    healthRecords := [], analytics := [], orders := [] }

/-- An order with a line item for the stocked product `A` and one for a
product id `B` that is absent from the repository. -/
def bodyMixed : OrderRequest :=
  { farmId := "F", customerId := "C", products := [⟨"A", 4, 2⟩, ⟨"B", 1, 3⟩],
    totalAmount := none, status := none, paymentStatus := none }

/-- A fully-stocked order for 4 units of `A` at price 2, whose body
carries `totalAmount: 999`. -/
def bodyTotal : OrderRequest :=
  { farmId := "F", customerId := "C", products := [⟨"A", 4, 2⟩],
    totalAmount := some 999, status := none, paymentStatus := none }

/-- An order for 5 units of product `P`, which holds only 3. -/
def bodyOver : OrderRequest :=
  { farmId := "F", customerId := "C", products := [⟨"P", 5, 1⟩],
    totalAmount := none, status := none, paymentStatus := none }

/-- Claim C1: the claim says that an order containing a line item whose
product is absent leaves every product unchanged and persists no order.
The code does neither: on the order `[4 × A, 1 × B]` with `B` absent,
product `A` is decremented from 10 to 6 and the order is persisted
anyway. -/
theorem createOrder_partial_mutation_on_missing_product :
    (alGet (createOrderHandler bodyMixed "o1" 0 stA).1.products "A").map Product.quantity
      = some 6 ∧
    alGet (createOrderHandler bodyMixed "o1" 0 stA).1.orders "o1"
      = some (createOrderHandler bodyMixed "o1" 0 stA).2 := by
  constructor
  · norm_num [createOrderHandler, applyLineItem, alGet, alInsert, bodyMixed, stA, prodA]
  · norm_num [createOrderHandler, applyLineItem, alGet, alInsert, bodyMixed, stA, prodA]

/-- Claim C2: on the fully-stocked order `[4 × A at 2]` the code does
decrement `A` from 10 to 6 and defaults `status`/`paymentStatus` to
`pending`, but the persisted `totalAmount` is the request body's `999`,
not the line-item sum `4 × 2 = 8`: the handler never computes it. -/
theorem createOrder_totalAmount_from_request_body :
    (createOrderHandler bodyTotal "o1" 0 stA).2.totalAmount = some 999 ∧
    (bodyTotal.products.foldl (fun s i => s + i.quantity * i.price) 0) = 8 ∧
    (alGet (createOrderHandler bodyTotal "o1" 0 stA).1.products "A").map Product.quantity
      = some 6 ∧
    (createOrderHandler bodyTotal "o1" 0 stA).2.status = OrderStatus.pending ∧
    (createOrderHandler bodyTotal "o1" 0 stA).2.paymentStatus = PaymentStatus.pending := by
  refine ⟨rfl, by norm_num [bodyTotal], ?_, rfl, rfl⟩
  norm_num [createOrderHandler, applyLineItem, alGet, alInsert, bodyTotal, stA, prodA]

/-- Claim C3: ordering 5 units of product `P` which holds 3 raises no
`InsufficientStock` error (the handler's result type has no error case):
the code persists `P` with quantity −2 and `available = false`, and
persists the order. -/
theorem createOrder_negative_stock_no_error :
    (alGet (createOrderHandler bodyOver "o1" 0 stP).1.products "P").map Product.quantity
      = some (-2) ∧
    (alGet (createOrderHandler bodyOver "o1" 0 stP).1.products "P").map Product.available
      = some false ∧
    alGet (createOrderHandler bodyOver "o1" 0 stP).1.orders "o1"
      = some (createOrderHandler bodyOver "o1" 0 stP).2 := by
  refine ⟨?_, ?_, ?_⟩ <;>
    norm_num [createOrderHandler, applyLineItem, alGet, alInsert, bodyOver, stP, prodP]

/-- A nonempty bird collection whose total quantity and total
`weight × quantity` are both zero. -/
def birdZero : Bird :=
  { id := "b", farmId := "F", breed := "x", quantity := 0, status := .healthy,
    weight := 5, feedConsumption := 5 }

/-- Claim C4: on the nonempty collection `[birdZero]` both denominators
(total bird quantity, total weight × quantity) are zero, yet
`mortality_rate` evaluates to `NaN` (0/0) and `feed_conversion_ratio` to
`Infinity` (5/0): the only guard in the code is the empty-collection
early return.  (`profit_margin`'s own zero-revenue guard does hold.) -/
theorem calculateMetrics_nan_inf_on_zero_denominators :
    (calculateMetrics [birdZero] []).mortality_rate = JSVal.nan ∧
    (calculateMetrics [birdZero] []).feed_conversion_ratio = JSVal.inf ∧
    ([birdZero].foldl (fun sum b => sum + b.quantity) 0) = 0 ∧
    ([birdZero].foldl (fun sum b => sum + b.weight * b.quantity) 0) = 0 := by
  have hfilter : List.filter (fun b => decide (b.status = BirdStatus.deceased)) [birdZero] = [] := by
    simp [birdZero]
  refine ⟨?_, ?_, ?_, ?_⟩
  · simp [calculateMetrics, hfilter, birdZero, jdiv, jmul]
  · simp [calculateMetrics, calculateFCR, birdZero, jdiv, jmul]
  · norm_num [birdZero]
  · norm_num [birdZero]

/-- A request asking for a daily analytics report. -/
def reqDaily : AnalyticsRequest := { farmId := "F", period := .daily }

/-- Claim C5 counterexample: a request for period `daily` is answered by
an Analytics record stamped `monthly` — the handler hardcodes the period
and reads no request data. -/
theorem generateAnalytics_period_ignored :
    (generateAnalyticsHandler reqDaily "a1" 0 stA).2.period ≠ reqDaily.period := by
  simp [generateAnalyticsHandler, reqDaily]

/-- Claim C5 as amended: whatever the requested period, the handler
persists one new Analytics record, stamped `monthly`; when the generated
id is fresh the record is appended and every previously stored Analytics
record is unchanged; no other store is written. -/
theorem generateAnalytics_append_only (req : AnalyticsRequest) (id : String) (now : Int)
    (st : State) (h : alGet st.analytics id = none) :
    (generateAnalyticsHandler req id now st).1.analytics
      = st.analytics ++ [(id, (generateAnalyticsHandler req id now st).2)] ∧
    (generateAnalyticsHandler req id now st).1.birds = st.birds ∧
    (generateAnalyticsHandler req id now st).1.products = st.products ∧
    (generateAnalyticsHandler req id now st).1.transactions = st.transactions ∧
    (generateAnalyticsHandler req id now st).1.inventory = st.inventory ∧
    (generateAnalyticsHandler req id now st).1.healthRecords = st.healthRecords ∧
    (generateAnalyticsHandler req id now st).1.orders = st.orders ∧
    (generateAnalyticsHandler req id now st).2.period = Period.monthly := by
  refine ⟨?_, rfl, rfl, rfl, rfl, rfl, rfl, rfl⟩
  exact alInsert_of_alGet_none st.analytics id _ h

/-- Witness for the amended claim C5 at a concrete fresh id. -/
theorem generateAnalytics_append_only_witness :
    alGet stA.analytics "a1" = none ∧
    (generateAnalyticsHandler reqDaily "a1" 0 stA).1.analytics
      = stA.analytics ++ [("a1", (generateAnalyticsHandler reqDaily "a1" 0 stA).2)] :=
  ⟨rfl, (generateAnalytics_append_only reqDaily "a1" 0 stA rfl).1⟩

/-- Claim C9: for every repository state and request, the Analytics
record returned and persisted by `POST /analytics/generate` has period
`monthly` and all six metrics zero: `req.params.farmId` is `undefined`
on this route, so both entity filters select nothing and
`calculateMetrics` takes its empty-collection branch. -/
theorem generateAnalytics_always_monthly_zero (req : AnalyticsRequest) (id : String)
    (now : Int) (st : State) :
    (generateAnalyticsHandler req id now st).2.period = Period.monthly ∧
    (generateAnalyticsHandler req id now st).2.metrics = zeroMetrics ∧
    (generateAnalyticsHandler req id now st).1.analytics
      = alInsert st.analytics id (generateAnalyticsHandler req id now st).2 := by
  refine ⟨rfl, ?_, rfl⟩
  show calculateMetrics ((alValues st.birds).filter (fun b => jsStrEq b.farmId none)) _
    = zeroMetrics
  have hb : (alValues st.birds).filter (fun b => jsStrEq b.farmId none) = [] := by
    simp [jsStrEq]
  rw [hb]
  rfl

-- Fixtures for the financial-report theorems.

/-- A completed sale of 100 for farm `F`. -/
def txSaleF : Transaction :=
  { id := "t1", farmId := "F", type := .sale, category := "eggs", amount := 100,
    status := .completed }

/-- A completed expense of 40 for farm `F`. -/
def txExpF : Transaction :=
  { id := "t2", farmId := "F", type := .expense, category := "feed", amount := 40,
    status := .completed }

/-- A transaction store holding the sale and the expense. -/
def txStoreF : Store Transaction := [("t1", txSaleF), ("t2", txExpF)]

/-- A cache entry computed before the two transactions were written: the
report of an empty transaction list, cached at time 0. -/
def staleEntry : CacheEntry := { data := financialReportFor [], timestamp := 0 }

/-- A cache holding only the stale entry for farm `F`. -/
def cacheStale : Cache := [("financial-report-F", staleEntry)]

/-- The farm-`F` transactions of `txStoreF`. -/
theorem txStoreF_farm_filter :
    (alValues txStoreF).filter (fun tx => decide (tx.farmId = "F")) = [txSaleF, txExpF] := by
  simp [alValues, txStoreF, txSaleF, txExpF]

/-- Sale total of the two fixture transactions. -/
theorem calculateTotal_fixture_sale : calculateTotal [txSaleF, txExpF] .sale = 100 := by
  simp [calculateTotal, txSaleF, txExpF]

/-- Expense total of the two fixture transactions. -/
theorem calculateTotal_fixture_expense : calculateTotal [txSaleF, txExpF] .expense = 40 := by
  simp [calculateTotal, txSaleF, txExpF]

/-- Claim C6 counterexample: two financial-report calls for farm `F`
over the same transaction store (no intervening transaction writes)
return different reports: the first call (at time 1) is served the stale
cached report of an empty transaction list, the second (at time 300000,
past `CACHE_DURATION`) recomputes from the store. -/
theorem financialReport_cache_staleness_breaks_determinism :
    (financialReportHandler "F" txStoreF cacheStale 1).1
      ≠ (financialReportHandler "F" txStoreF
          ((financialReportHandler "F" txStoreF cacheStale 1).2) 300000).1 := by
  have hkey : ("financial-report-" ++ "F" : String) = "financial-report-F" := by decide
  have hhit : getCachedData cacheStale ("financial-report-" ++ "F") 1
      = some (financialReportFor []) := by
    norm_num [getCachedData, hkey, cacheStale, staleEntry, alGet, CACHE_DURATION]
  have hc1 : financialReportHandler "F" txStoreF cacheStale 1
      = (financialReportFor [], cacheStale) := by
    simp only [financialReportHandler, hhit]
  have hmiss : getCachedData cacheStale ("financial-report-" ++ "F") 300000 = none := by
    norm_num [getCachedData, hkey, cacheStale, staleEntry, alGet, CACHE_DURATION]
  have hc2 : (financialReportHandler "F" txStoreF cacheStale 300000).1
      = financialReportFor [txSaleF, txExpF] := by
    simp only [financialReportHandler, hmiss, txStoreF_farm_filter]
  rw [hc1]
  intro heq
  have h2 := congrArg FinancialReport.totalSales (heq.trans hc2)
  rw [show (financialReportFor []).totalSales = 0 from rfl] at h2
  rw [show (financialReportFor [txSaleF, txExpF]).totalSales
    = calculateTotal [txSaleF, txExpF] .sale from rfl, calculateTotal_fixture_sale] at h2
  norm_num at h2

/-- Claim C6 as amended: when the first call misses the cache, a second
call over the same transaction store returns the identical report
(whether it hits the entry the first call wrote or recomputes), and the
computed report is the deterministic aggregate of the farm's
transactions: `totalSales`/`totalExpenses`/`totalInvestments` are the
sums of matching amounts and `netProfit = totalSales − totalExpenses`. -/
theorem financialReport_deterministic_after_miss (farmId : String) (txs : Store Transaction)
    (cache : Cache) (t1 t2 : Int)
    (h : getCachedData cache ("financial-report-" ++ farmId) t1 = none) :
    (financialReportHandler farmId txs ((financialReportHandler farmId txs cache t1).2) t2).1
      = (financialReportHandler farmId txs cache t1).1 ∧
    (financialReportHandler farmId txs cache t1).1.totalSales
      = calculateTotal ((alValues txs).filter (fun tx => decide (tx.farmId = farmId))) .sale ∧
    (financialReportHandler farmId txs cache t1).1.totalExpenses
      = calculateTotal ((alValues txs).filter (fun tx => decide (tx.farmId = farmId))) .expense ∧
    (financialReportHandler farmId txs cache t1).1.totalInvestments
      = calculateTotal ((alValues txs).filter (fun tx => decide (tx.farmId = farmId))) .investment ∧
    (financialReportHandler farmId txs cache t1).1.netProfit
      = (financialReportHandler farmId txs cache t1).1.totalSales
        - (financialReportHandler farmId txs cache t1).1.totalExpenses := by
  have h1 : financialReportHandler farmId txs cache t1
      = (financialReportFor ((alValues txs).filter (fun tx => decide (tx.farmId = farmId))),
         alInsert cache ("financial-report-" ++ farmId)
           { data := financialReportFor
               ((alValues txs).filter (fun tx => decide (tx.farmId = farmId))),
             timestamp := t1 }) := by
    simp only [financialReportHandler, h]
  have h2 : getCachedData
      (alInsert cache ("financial-report-" ++ farmId)
        { data := financialReportFor
            ((alValues txs).filter (fun tx => decide (tx.farmId = farmId))),
          timestamp := t1 })
      ("financial-report-" ++ farmId) t2
      = if t2 - t1 < CACHE_DURATION then
          some (financialReportFor ((alValues txs).filter (fun tx => decide (tx.farmId = farmId))))
        else none := by
    rw [getCachedData, alGet_alInsert_self]
  refine ⟨?_, by rw [h1]; rfl, by rw [h1]; rfl, by rw [h1]; rfl, by rw [h1]; rfl⟩
  rw [h1]
  by_cases hlt : t2 - t1 < CACHE_DURATION
  · simp only [financialReportHandler, h2, if_pos hlt]
  · simp only [financialReportHandler, h2, if_neg hlt]

/-- Witness for the amended claim C6: with an empty cache and the store
`[sale 100, expense 40]` of farm `F`, both calls return the same report,
whose totals are 100, 40 and net profit 60. -/
theorem financialReport_deterministic_after_miss_witness :
    getCachedData [] ("financial-report-" ++ "F") 0 = none ∧
    (financialReportHandler "F" txStoreF ((financialReportHandler "F" txStoreF [] 0).2) 60000).1
      = (financialReportHandler "F" txStoreF [] 0).1 ∧
    (financialReportHandler "F" txStoreF [] 0).1.totalSales = 100 ∧
    (financialReportHandler "F" txStoreF [] 0).1.totalExpenses = 40 ∧
    (financialReportHandler "F" txStoreF [] 0).1.netProfit = 60 := by
  have hall := financialReport_deterministic_after_miss "F" txStoreF [] 0 60000 rfl
  have hsal : (financialReportHandler "F" txStoreF [] 0).1.totalSales = 100 := by
    rw [hall.2.1, txStoreF_farm_filter, calculateTotal_fixture_sale]
  have hexp : (financialReportHandler "F" txStoreF [] 0).1.totalExpenses = 40 := by
    rw [hall.2.2.1, txStoreF_farm_filter, calculateTotal_fixture_expense]
  refine ⟨rfl, hall.1, hsal, hexp, ?_⟩
  rw [hall.2.2.2.2, hsal, hexp]
  norm_num

/-- Claim C10: after a first call that computes and caches the report,
any second call within `CACHE_DURATION` returns that first report
unchanged, whatever the transaction store holds by then (here `txs2` is
arbitrary, covering any transactions inserted between the calls): the
response is served from the cache without re-reading the store. -/
theorem financialReport_cached_within_window (farmId : String)
    (txs1 txs2 : Store Transaction) (cache : Cache) (t1 t2 : Int)
    (h : getCachedData cache ("financial-report-" ++ farmId) t1 = none)
    (hwin : t2 - t1 < CACHE_DURATION) :
    (financialReportHandler farmId txs2 ((financialReportHandler farmId txs1 cache t1).2) t2).1
      = (financialReportHandler farmId txs1 cache t1).1 := by
  have h1 : financialReportHandler farmId txs1 cache t1
      = (financialReportFor ((alValues txs1).filter (fun tx => decide (tx.farmId = farmId))),
         alInsert cache ("financial-report-" ++ farmId)
           { data := financialReportFor
               ((alValues txs1).filter (fun tx => decide (tx.farmId = farmId))),
             timestamp := t1 }) := by
    simp only [financialReportHandler, h]
  have h2 : getCachedData
      (alInsert cache ("financial-report-" ++ farmId)
        { data := financialReportFor
            ((alValues txs1).filter (fun tx => decide (tx.farmId = farmId))),
          timestamp := t1 })
      ("financial-report-" ++ farmId) t2
      = some (financialReportFor ((alValues txs1).filter (fun tx => decide (tx.farmId = farmId)))) := by
    simp only [getCachedData, alGet_alInsert_self]
    rw [if_pos hwin]
  rw [h1]
  simp only [financialReportHandler, h2]

/-- Witness for claim C10: the first call caches the empty-store report
at time 0; the transaction store then grows to `txStoreF` (a sale of 100
and an expense of 40); the second call at time 1000 still returns the
all-zero first report. -/
theorem financialReport_cached_within_window_witness :
    getCachedData [] ("financial-report-" ++ "F") 0 = none ∧
    ((1000 : Int) - 0 < CACHE_DURATION) ∧
    (financialReportHandler "F" txStoreF ((financialReportHandler "F" [] [] 0).2) 1000).1
      = (financialReportHandler "F" [] [] 0).1 := by
  refine ⟨rfl, by norm_num [CACHE_DURATION], ?_⟩
  exact financialReport_cached_within_window "F" [] txStoreF [] 0 1000 rfl
    (by norm_num [CACHE_DURATION])

/-- Claim C7: the low-stock query returns exactly the stored inventory
items of the given farm whose quantity is at or below their minimum
threshold — every returned item matches, every matching item is
returned, items of other farms are excluded — and the repository state
is unchanged. -/
theorem lowStockInventory_correct (farmId : String) (st : State) :
    (lowStockInventoryHandler farmId st).1 = st ∧
    (∀ inv : Inventory, inv ∈ (lowStockInventoryHandler farmId st).2
      ↔ inv ∈ alValues st.inventory ∧ inv.farmId = farmId
          ∧ inv.quantity ≤ inv.minimumThreshold) ∧
    (∀ inv : Inventory, inv ∈ (lowStockInventoryHandler farmId st).2 → inv.farmId = farmId) := by
  refine ⟨rfl, ?_, ?_⟩
  · intro inv
    simp [lowStockInventoryHandler, List.mem_filter, and_assoc]
  · intro inv h
    have h2 := (List.mem_filter.mp h).2
    simp only [Bool.and_eq_true, decide_eq_true_eq] at h2
    exact h2.1

/-- One product-loop pass keeps the Product invariant: the written
product's `available` is recomputed from its new quantity, and every
other product is untouched. -/
theorem applyLineItem_inv (ps : Store Product) (item : LineItem)
    (h : ∀ p ∈ alValues ps, p.available = decide (p.quantity > 0)) :
    ∀ p ∈ alValues (applyLineItem ps item), p.available = decide (p.quantity > 0) := by
  intro p hp
  cases hget : alGet ps item.productId with
  | none =>
    rw [applyLineItem, hget] at hp
    exact h p hp
  | some product =>
    rw [applyLineItem, hget] at hp
    rcases mem_alValues_alInsert _ _ _ _ hp with h1 | h1
    · subst h1
      rfl
    · exact h p h1

/-- The whole `order.products.forEach` loop keeps the Product
invariant. -/
theorem foldl_applyLineItem_inv (items : List LineItem) (ps : Store Product)
    (h : ∀ p ∈ alValues ps, p.available = decide (p.quantity > 0)) :
    ∀ p ∈ alValues (items.foldl applyLineItem ps), p.available = decide (p.quantity > 0) := by
  induction items generalizing ps with
  | nil => exact h
  | cons item rest ih => exact ih _ (applyLineItem_inv ps item h)

/-- Claim C8: every endpoint preserves the Product invariant
`available ⇔ quantity > 0`: only the order handler writes products, and
it recomputes `available` from the decremented quantity before
persisting. -/
theorem productInvariant_preserved (op : Op) (st : State) (h : productInvariant st) :
    productInvariant (applyOp op st) := by
  cases op with
  | createInventory inv => exact h
  | listFarmInventory farmId page limit => exact h
  | lowStockAlert farmId => exact h
  | createTransaction tx => exact h
  | financialReport farmId now => exact h
  | createHealthRecord record => exact h
  | healthReport farmId => exact h
  | generateAnalytics req id now => exact h
  | createOrder body id now =>
    intro p hp
    exact foldl_applyLineItem_inv body.products st.products h p hp

/-- Witness for claim C8: the invariant holds of the one-product store
`stA` and still holds after the mixed order runs against it. -/
theorem productInvariant_preserved_witness :
    productInvariant stA ∧
    productInvariant (applyOp (Op.createOrder bodyMixed "o1" 0) stA) := by
  have hinv : productInvariant stA := by
    intro p hp
    simp only [stA, alValues, List.map_cons, List.map_nil, List.mem_singleton] at hp
    subst hp
    norm_num [prodA]
  exact ⟨hinv, productInvariant_preserved (Op.createOrder bodyMixed "o1" 0) stA hinv⟩
